import Mathlib

/-!
# Verification of the match-orchestration core

Shallow embedding, in Lean 4, of the room/session registry, the match
process launcher, the lobby push-delivery bookkeeping, and the two match
engines of this repository, together with theorems settling the frozen
claims about them.

Each definition mirrors one Python function of the repository (file and
function named in its doc comment).  Mutating methods become functions
returning the updated state; OS effects (port allocation, process spawn,
TCP probe, random rolls, wall-clock time) become explicit oracle inputs.
-/

-- ======================================================================
-- Definitions (embedding of the source)
-- ======================================================================

namespace RoomMgr

/-- One room record, mirroring the dataclass `Room` of
`server/room_manager.py` (the `chat` log field is omitted: no operation
modelled here reads or writes it). -/
structure Room where
  room_id : Nat
  game_id : Nat
  host : String
  type : String            -- "public" or "private"
  players : List String
  max_players : Nat
  status : String          -- "waiting" / "running"
  port : Option Nat
deriving DecidableEq, Repr

/-- State of `RoomManager` (`server/room_manager.py`): the room table,
the id counter and the invitation table.  The Python dicts are modelled
as association lists; the attached `GameLauncher` is passed explicitly
to `start_game` instead of being stored (it is a function, which would
spoil decidable equality of states). -/
structure Manager where
  rooms : List (Nat × Room)
  next_room_id : Nat
  invites : List (Nat × List String)
deriving DecidableEq, Repr

def Manager.lookupRoom (m : Manager) (rid : Nat) : Option Room :=
  (m.rooms.find? (fun pr => pr.1 = rid)).map (·.2)

def Manager.invitesFor (m : Manager) (rid : Nat) : List String :=
  ((m.invites.find? (fun pr => pr.1 = rid)).map (·.2)).getD []

/-- Replace the room stored under `rid` (used when a method mutates the
room object held in `self.rooms`). -/
def Manager.setRoom (m : Manager) (rid : Nat) (r : Room) : Manager :=
  { m with rooms := m.rooms.map (fun pr => if pr.1 = rid then (rid, r) else pr) }

/-- Replace the invite set stored under `rid`, creating the entry when
absent (Python `self.invites.setdefault(room_id, set())`). -/
def Manager.setInvites (m : Manager) (rid : Nat) (s : List String) : Manager :=
  if (m.invites.find? (fun pr => pr.1 = rid)).isSome then
    { m with invites := m.invites.map (fun pr => if pr.1 = rid then (rid, s) else pr) }
  else
    { m with invites := m.invites ++ [(rid, s)] }

/-- Python `int(room.max_players or 2)`: a falsy (zero) capacity falls
back to 2. -/
def cap (r : Room) : Nat := if r.max_players = 0 then 2 else r.max_players

/-- Mirrors `RoomManager.create_room` (`server/room_manager.py:35-43`).  The
host is appended as the first participant. -/
def create_room (m : Manager) (game_id : Nat) (username : String)
    (room_type : String) (max_players : Nat) : Room × Manager :=
  let rid := m.next_room_id
  let room : Room :=
    { room_id := rid, game_id := game_id, host := username, type := room_type
      players := [username], max_players := max_players
      status := "waiting", port := none }
  (room, { m with rooms := m.rooms ++ [(rid, room)], next_room_id := rid + 1 })

/-- Mirrors `RoomManager.join_room` (`server/room_manager.py:48-66`).  Returns
(ok, message, updated manager). -/
def join_room (m : Manager) (room_id : Nat) (username : String) :
    Bool × String × Manager :=
  match m.lookupRoom room_id with
  | none => (false, "Room does not exist.", m)
  | some room =>
    if room.status ≠ "waiting" then
      (false, "Room already started.", m)
    else if cap room ≤ room.players.length then
      (false, "Room already full (" ++ toString (cap room) ++ " players).", m)
    else if room.type = "private" ∧ username ≠ room.host then
      (false, "This is a private room. Only the host may join.", m)
    else
      (true, username ++ " joined room " ++ toString room_id,
        m.setRoom room_id { room with players := room.players ++ [username] })

/-- Mirrors `RoomManager.invite_user` (`server/room_manager.py:71-82`). -/
def invite_user (m : Manager) (room_id : Nat) (host target : String) :
    Bool × String × Manager :=
  match m.lookupRoom room_id with
  | none => (false, "Room does not exist.", m)
  | some room =>
    if room.host ≠ host then
      (false, "Only the host can invite users.", m)
    else if room.type ≠ "private" then
      (false, "Invites are only for private rooms.", m)
    else if target ∈ room.players then
      (false, "User already in room.", m)
    else
      let cur := m.invitesFor room_id
      (true, target ++ " invited to room " ++ toString room_id,
        m.setInvites room_id (if target ∈ cur then cur else cur ++ [target]))

/-- Mirrors `RoomManager.accept_invite` (`server/room_manager.py:99-112`). -/
def accept_invite (m : Manager) (room_id : Nat) (username : String) :
    Bool × String × Manager :=
  match m.lookupRoom room_id with
  | none => (false, "Room does not exist.", m)
  | some room =>
    if username ∉ m.invitesFor room_id then
      (false, "No invite for this user.", m)
    else if room.status ≠ "waiting" then
      (false, "Room already started.", m)
    else if cap room ≤ room.players.length then
      (false, "Room already full (" ++ toString (cap room) ++ " players).", m)
    else
      (true, username ++ " joined room " ++ toString room_id ++ " via invite",
        ((m.setRoom room_id { room with players := room.players ++ [username] }).setInvites
          room_id ((m.invitesFor room_id).erase username)))

end RoomMgr

namespace Launcher

/-- Oracle inputs for one `GameLauncher.launch` call
(`server/game_launcher.py:41-105`).  Each field records the outcome of
one OS interaction the launcher performs, in the order the source
performs them. -/
structure LaunchEnv where
  /-- Mirrors `room.game_id` was found in the `games` registry. -/
  gameFound : Bool
  /-- the package manifest `game.json` declares `server.start_cmd`. -/
  hasStartCmd : Bool
  /-- the legacy fallback `server/<name>_server.py` script exists. -/
  legacyScriptExists : Bool
  /-- the path printed in the "Game server not found" error. -/
  serverScript : String
  /-- Mirrors `subprocess.Popen` succeeded. -/
  spawnOk : Bool
  /-- the exception text of a failed spawn. -/
  spawnErr : String
  /-- the port drawn by `random.randint(30000, 60000)`. -/
  allocatedPort : Nat
  /-- a short-timeout TCP connect to `(host, allocatedPort)` succeeded
  at some poll before the 6-second readiness deadline elapsed. -/
  probeOk : Bool
deriving DecidableEq, Repr

/-- Observable outcome of `GameLauncher.launch`: the returned
`(ok, port_or_err)` pair (as an `Except`), and whether
`proc.terminate()` was invoked on the spawned process. -/
structure LaunchOutcome where
  result : Except String Nat
  terminated : Bool
deriving Repr

/-- Mirrors `GameLauncher.launch` (`server/game_launcher.py:41-105`): registry
lookup, command resolution, spawn, then the `_wait_for_port` readiness
poll; on a missed deadline the process is terminated and a
failed-to-listen error returned. -/
def launch (env : LaunchEnv) (room : RoomMgr.Room) : LaunchOutcome :=
  if env.gameFound = false then
    { result := .error ("Game " ++ toString room.game_id ++ " not found in registry")
      terminated := false }
  else if env.hasStartCmd = false ∧ env.legacyScriptExists = false then
    { result := .error ("Game server not found: " ++ env.serverScript)
      terminated := false }
  else if env.spawnOk = false then
    { result := .error ("failed_to_start_process: " ++ env.spawnErr)
      terminated := false }
  else if env.probeOk then
    { result := .ok env.allocatedPort, terminated := false }
  else
    { result := .error ("server_failed_to_listen_on_port_" ++ toString env.allocatedPort)
      terminated := true }

end Launcher

namespace RoomMgr

/-- Mirrors `RoomManager.start_game` (`server/room_manager.py:149-166`).  The
attached launcher is passed as an explicit `Option`-al function (its
`launch` returning `(ok, port_or_err)` as an `Except`); on launcher
success the room is mutated to `running` with the port recorded. -/
def start_game (m : Manager) (room_id : Nat)
    (launcher : Option (Room → Except String Nat)) :
    Except String Nat × Manager :=
  match m.lookupRoom room_id with
  | none => (.error "Room does not exist.", m)
  | some room =>
    if room.players.length < 2 then
      (.error "Need 2 players to start.", m)
    else
      match launcher with
      | none => (.error "GameLauncher not attached.", m)
      | some launchFn =>
        match launchFn room with
        | .error e => (.error e, m)
        | .ok port =>
          (.ok port,
            m.setRoom room_id { room with status := "running", port := some port })

/-- Concrete room for the C4 counterexample: private, waiting, host
"h", one free seat. -/
def R4 : Room :=
  { room_id := 1, game_id := 7, host := "h", type := "private"
    players := ["h"], max_players := 2, status := "waiting", port := none }

/-- Concrete state for the C4 counterexample: room `R4` under id 1, and
"b" holds a pending invite. -/
def M4 : Manager :=
  { rooms := [(1, R4)], next_room_id := 2, invites := [(1, ["b"])] }

/-- Concrete room for the C5 counterexample: public, waiting, capacity
3, "b" already joined. -/
def R5 : Room :=
  { room_id := 1, game_id := 7, host := "a", type := "public"
    players := ["a", "b"], max_players := 3, status := "waiting", port := none }

def M5 : Manager :=
  { rooms := [(1, R5)], next_room_id := 2, invites := [] }

/-- Concrete room and manager for the C1 witness: waiting 2-player
public room. -/
def R1 : Room :=
  { room_id := 1, game_id := 3, host := "a", type := "public"
    players := ["a", "b"], max_players := 2, status := "waiting", port := none }

def M1 : Manager :=
  { rooms := [(1, R1)], next_room_id := 2, invites := [] }

/-- Launch environment whose readiness probe never succeeds. -/
def envFail : Launcher.LaunchEnv :=
  { gameFound := true, hasStartCmd := true, legacyScriptExists := false
    serverScript := "", spawnOk := true, spawnErr := ""
    allocatedPort := 31000, probeOk := false }

/-- Concrete running room for the C2 counterexample. -/
def R2 : Room :=
  { room_id := 1, game_id := 3, host := "h", type := "private"
    players := ["h", "b"], max_players := 8, status := "running", port := some 40000 }

def M2 : Manager :=
  { rooms := [(1, R2)], next_room_id := 2, invites := [] }

/-- Launch environment that succeeds immediately (used to re-start the
already-running room). -/
def envOk : Launcher.LaunchEnv :=
  { gameFound := true, hasStartCmd := true, legacyScriptExists := false
    serverScript := "", spawnOk := true, spawnErr := ""
    allocatedPort := 31000, probeOk := true }

end RoomMgr

namespace Lobby

/-- Connection directories of `LobbyServer` (`server/lobby_server.py`):
`self.clients` and `self.monitors` map a username to a list of live
connection handles (handles modelled as naturals). -/
def lookupConns (m : List (String × List Nat)) (u : String) : Option (List Nat) :=
  (m.find? (fun pr => pr.1 = u)).map (·.2)

def updateConns (m : List (String × List Nat)) (u : String) (l : List Nat) :
    List (String × List Nat) :=
  m.map (fun pr => if pr.1 = u then (u, l) else pr)

/-- Mirrors `LobbyServer._add_client_conn` (`server/lobby_server.py:214-215`).
The source body is exactly `lst = self.clients.setdefault(username, [])`
and nothing else: the entry is created when missing, but the connection
handle is never appended to it. -/
def add_client_conn (clients : List (String × List Nat)) (username : String)
    (conn : Nat) : List (String × List Nat) :=
  match lookupConns clients username with
  | some _ => clients
  | none => clients ++ [(username, [])]

/-- Mirrors `LobbyServer._add_monitor_conn` (`server/lobby_server.py:217-220`):
`setdefault` then append the handle when not already present. -/
def add_monitor_conn (monitors : List (String × List Nat)) (username : String)
    (conn : Nat) : List (String × List Nat) :=
  match lookupConns monitors username with
  | some lst => if conn ∈ lst then monitors else updateConns monitors username (lst ++ [conn])
  | none => monitors ++ [(username, [conn])]

/-- The connection list the `game_started` push iterates over for
participant `p` (`server/lobby_server.py:1221`):
`self.monitors.get(p) or self.clients.get(p) or []` under Python
truthiness — the monitor list when it is non-empty, else the client
list when non-empty, else nothing. -/
def notify_conns (monitors clients : List (String × List Nat)) (p : String) :
    List Nat :=
  match lookupConns monitors p with
  | some (c :: cs) => c :: cs
  | _ =>
    match lookupConns clients p with
    | some (c :: cs) => c :: cs
    | _ => []

end Lobby

namespace RingBS

/-- One seat of the N-player ring battleship server
(`player_client/downloads/u2/Battleship/1.0/server/battleship_server.py`,
entries of `self.players`): its connection handle (`None` once
disconnected) and its submitted board. -/
structure Seat where
  conn : Option Nat
  board : Option (List (List String))
deriving DecidableEq, Repr

/-- Line 169 of `relay_turn`: at the top of every iteration the alive
index list is refiltered, dropping seats whose connection is gone. -/
def aliveFilter (players : List Seat) (alive : List Nat) : List Nat :=
  alive.filter (fun i => ((players.getD i ⟨none, none⟩).conn).isSome)

/-- Lines 181-182: `if turn_pos >= len(alive): turn_pos = 0`. -/
def normPos (pos len : Nat) : Nat := if len ≤ pos then 0 else pos

/-- Lines 169-187 of `relay_turn`: refilter the alive ring, wrap the
cursor, and select `attacker_idx = alive[turn_pos]` and
`defender_idx = alive[(turn_pos + 1) % len(alive)]`; `none` when fewer
than two seats remain alive (walkover/termination path). -/
def currentPair (players : List Seat) (alive : List Nat) (pos : Nat) :
    Option (Nat × Nat) × List Nat × Nat :=
  let alive' := aliveFilter players alive
  if alive'.length < 2 then (none, alive', pos)
  else
    let pos' := normPos pos alive'.length
    (some (alive'.getD pos' 0, alive'.getD ((pos' + 1) % alive'.length) 0),
      alive', pos')

/-- The (attacker, defender) index pairs of `n` consecutive normally
resolved turns (no win and no further disconnect during the sequence):
each iteration selects via `currentPair` and then advances the cursor
(`turn_pos += 1`, line 254). -/
def turnSeq (players : List Seat) : Nat → List Nat → Nat → List (Nat × Nat)
  | 0, _, _ => []
  | n + 1, alive, pos =>
    match currentPair players alive pos with
    | (none, _, _) => []
    | (some pr, alive', pos') => pr :: turnSeq players n alive' (pos' + 1)

/-- Concrete 4-seat state for C6: seats A, B, C (indices 0-2) hold live
connections; seat D (index 3) submitted a board but has disconnected
(`conn = None`). -/
def players4D : List Seat :=
  [ { conn := some 10, board := some [["~"]] }
  , { conn := some 11, board := some [["~"]] }
  , { conn := some 12, board := some [["~"]] }
  , { conn := none,   board := some [["~"]] } ]

end RingBS

namespace BS

/-- Constants of the 2-player battleship server
(`server/game_storage/Battleship/1.0/server/battleship_server.py`):
`SHIP_SYMBOLS` is the set of first letters of the five ship names
(Carrier, Battleship, Cruiser, Submarine, Destroyer — "C" deduplicated). -/
def SHIP_SYMBOLS : List String := ["C", "B", "S", "D"]

/-- Mirrors `SYMBOL_TO_NAME = {name[0]: name for name in SHIPS}`: the later
"Cruiser" overwrites "Carrier" under key "C". -/
def SYMBOL_TO_NAME (s : String) : Option String :=
  if s = "C" then some "Cruiser"
  else if s = "B" then some "Battleship"
  else if s = "S" then some "Submarine"
  else if s = "D" then some "Destroyer"
  else none

/-- Mirrors `all_ships_sunk(board)`: no ship symbol remains anywhere. -/
def all_ships_sunk (board : List (List String)) : Bool :=
  board.all (fun row => row.all (fun cell => cell ∉ SHIP_SYMBOLS))

/-- Mirrors `defender_board[r][c] = v` (in-place row update). -/
def setCell (board : List (List String)) (r c : Nat) (v : String) :
    List (List String) :=
  board.set r ((board.getD r []).set c v)

/-- Python truthiness of the `sunk_boat` value (a `str` or `None`). -/
def truthyStr : Option String → Bool
  | some s => s ≠ ""
  | none => false

structure TurnOutcome where
  result : String
  sunk_boat : Option String
  board : List (List String)
deriving DecidableEq, Repr

/-- Attack resolution of `BattleshipServer.relay_turn`
(`battleship_server.py:171-193`): bounds guard, then hit (mark "X" and
check whether any cell of the hit ship's symbol remains on the already
marked board), repeat, or miss (mark "o"). -/
def resolve_attack (board : List (List String)) (r c : Int) : TurnOutcome :=
  if ¬(0 ≤ r ∧ r < 10 ∧ 0 ≤ c ∧ c < 10) then
    { result := "INVALID", sunk_boat := none, board := board }
  else
    let cell := (board.getD r.toNat []).getD c.toNat ""
    if cell ∈ SHIP_SYMBOLS then
      let b1 := setCell board r.toNat c.toNat "X"
      { result := "HIT"
        sunk_boat := if b1.any (fun row => cell ∈ row) then none else SYMBOL_TO_NAME cell
        board := b1 }
    else if cell = "X" ∨ cell = "o" then
      { result := "REPEAT", sunk_boat := none, board := board }
    else
      { result := "MISS", sunk_boat := none
        board := setCell board r.toNat c.toNat "o" }

/-- The turn loop's two winning exits (`battleship_server.py:206-234`):
the attacker wins this turn iff the result is a `HIT` whose ship was
fully sunk (immediate-sink exit, truthiness of `sunk_boat`), or — the
legacy fallback — the attack was valid and no ship symbol remains at
all. -/
def attacker_wins_turn (board : List (List String)) (r c : Int) : Bool :=
  let o := resolve_attack board r c
  (o.result = "HIT" && truthyStr o.sunk_boat) ||
  (o.result ≠ "INVALID" && all_ships_sunk o.board)

/-- Witness board for C7: a single-cell Destroyer at (0,0) and an
untouched three-cell Battleship on row 5 — sinking the Destroyer wins
at once even though the Battleship still stands. -/
def board7 : List (List String) :=
  ("D" :: List.replicate 9 "~") ::
  List.replicate 4 (List.replicate 10 "~") ++
  [["~", "~", "B", "B", "B", "~", "~", "~", "~", "~"]] ++
  List.replicate 4 (List.replicate 10 "~")

end BS

namespace Tetris

/-- Constants of the tick-based engine
(`server/game_storage/Tetris/1.0/server/game_server.py:8-13`).
Timestamps (`time.time()` floats) are modelled as rationals: only their
ordering and the fixed freeze duration matter to the embedded logic. -/
def WIDTH : Nat := 10

def HEIGHT : Nat := 20

def FREEZE_SECS : ℚ := 2

/-- Modelled from the spec: the message vocabulary module `messages.py`
imported by `game_server.py` is not under `src/`; §6 of the spec names
the tokens (`INPUT{action}` with move/rotate/hard-drop actions).  Only
their identity as distinct discriminator strings matters here. -/
def INPUT : String := "INPUT"

/-- Modelled from the spec: see `INPUT`. -/
def LEFT : String := "LEFT"

/-- Modelled from the spec: see `INPUT`. -/
def RIGHT : String := "RIGHT"

/-- Modelled from the spec: see `INPUT`. -/
def ROTATE_CW : String := "ROTATE_CW"

/-- Modelled from the spec: see `INPUT`. -/
def HARD_DROP : String := "HARD_DROP"

/-- The shape table `SHAPES` of the (absent from `src/`) `shapes.py`:
per piece tag and rotation index, the cell offsets of the piece.  The
embedding keeps it abstract — every theorem below holds for any table. -/
def Shapes : Type := String → Nat → List (Int × Int)

/-- Mirrors `PlayerState` (`game_server.py:16-32`).  `_flash_granted` is
`flash_granted` here. -/
structure PlayerState where
  board : List (List (Option String))
  active : Option (String × Int × Int × Nat)
  queue : List String
  alive : Bool
  score : Nat
  lines : Nat
  cleared_recent : List Nat
  freeze_until : ℚ
  hold : Option String
  hold_used : Bool
  flash_charges : Nat
  flash_granted : Nat
  last_hold_at : ℚ
  last_flash_at : ℚ
deriving DecidableEq, Repr

/-- Mirrors `Game.cells` (`game_server.py:58-62`): the power piece "P" uses the
O shape's rotation 0 offsets. -/
def cells (shapes : Shapes) (p : String) (x y : Int) (r : Nat) : List (Int × Int) :=
  if p = "P" then (shapes "O" 0).map (fun d => (x + d.1, y + d.2))
  else (shapes p r).map (fun d => (x + d.1, y + d.2))

def cellAt (board : List (List (Option String))) (cy cx : Int) : Option String :=
  (board.getD cy.toNat []).getD cx.toNat none

/-- Mirrors `Game.collides` (`game_server.py:64-70`). -/
def collides (shapes : Shapes) (board : List (List (Option String)))
    (p : String) (x y : Int) (r : Nat) : Bool :=
  (cells shapes p x y r).any fun pr =>
    decide (pr.1 < 0) || decide ((WIDTH : Int) ≤ pr.1) ||
    decide (pr.2 < 0) || decide ((HEIGHT : Int) ≤ pr.2) ||
    (cellAt board pr.2 pr.1).isSome

/-- Mirrors `Game.spawn_piece` (`game_server.py:49-56`).  The pieces that the
`while len(queue) < 3` refill would draw from `self._next_piece()` are
supplied explicitly as `fresh`; when `fresh` runs dry the state is
returned unchanged (unreachable in the source, whose rng is endless). -/
def spawn_piece (shapes : Shapes) (fresh : List String) (ps : PlayerState) :
    PlayerState :=
  match ps.queue ++ fresh.take (3 - ps.queue.length) with
  | [] => ps
  | p :: rest =>
    let ps1 := { ps with queue := rest, active := some (p, 3, 0, 0), hold_used := false }
    if collides shapes ps1.board p 3 0 0 then { ps1 with alive := false } else ps1

/-- Mirrors `Game._grant_flash_charges` (`game_server.py:82-87`): one flash
charge per 2 cumulative cleared lines, tracked via `_flash_granted`. -/
def grant_flash_charges (ps : PlayerState) : PlayerState :=
  let granted := ps.lines / 2
  if ps.flash_granted < granted then
    { ps with flash_charges := ps.flash_charges + (granted - ps.flash_granted)
              flash_granted := granted }
  else ps

/-- The placement loop of `Game.lock_piece` (`game_server.py:91-93`):
`for cx, cy in cells: if 0 <= cy < HEIGHT: board[cy][cx] = p`.  The
source guards only `cy`; a `cx` outside `[0, WIDTH)` would wrap or
raise in Python, while `List.set` ignores it — reachable locks only
ever place in-bounds cells (`collides` kept the piece inside). -/
def placeCell (b : List (List (Option String))) (pr : Int × Int)
    (p : String) : List (List (Option String)) :=
  if 0 ≤ pr.2 ∧ pr.2 < (HEIGHT : Int) then
    b.set pr.2.toNat ((b.getD pr.2.toNat []).set pr.1.toNat (some p))
  else b

def place (board : List (List (Option String))) (cs : List (Int × Int))
    (p : String) : List (List (Option String)) :=
  match cs with
  | [] => board
  | pr :: rest => place (placeCell board pr p) rest p

def rowFull (row : List (Option String)) : Bool := row.all (·.isSome)

/-- Mirrors `[0, 100, 300, 500, 800][cleared]` (`game_server.py:107`); a piece
occupies at most 4 rows so `cleared ≤ 4` in every reachable call. -/
def scoreTable : List Nat := [0, 100, 300, 500, 800]

/-- Mirrors `Game.lock_piece` (`game_server.py:89-117`): place the active
piece, remove every fully-filled row and prepend one empty row per
cleared row, update lines/score/`cleared_recent`, grant flash charges
when any line cleared, apply the power piece's on-lock effect (+50
score, and — when the 50% roll `freezeRoll` comes up and an opponent
exists — freeze the opponent until `now + FREEZE_SECS`), then spawn
the next piece.  Called with `active = None` it would raise in Python;
that branch returns the state unchanged and is never exercised. -/
def lock_piece (shapes : Shapes) (fresh : List String) (freezeRoll : Bool)
    (now : ℚ) (ps : PlayerState) (opp : Option PlayerState) :
    PlayerState × Option PlayerState :=
  match ps.active with
  | none => (ps, opp)
  | some (p, x, y, r) =>
    let placed := place ps.board (cells shapes p x y r) p
    let cleared := (placed.filter (fun row => rowFull row)).length
    let new_rows := placed.filter (fun row => !rowFull row)
    let cleared_rows := (placed.enum.filter (fun pr => rowFull pr.2)).map (·.1)
    let ps1 := { ps with
      board := List.replicate cleared (List.replicate WIDTH (none : Option String)) ++ new_rows
      lines := ps.lines + cleared
      score := ps.score + scoreTable.getD cleared 0
      cleared_recent := cleared_rows }
    let ps2 := if 0 < cleared then grant_flash_charges ps1 else ps1
    let ps3 := if p = "P" then { ps2 with score := ps2.score + 50 } else ps2
    let opp' :=
      if p = "P" then
        match opp with
        | some o =>
          if freezeRoll then some { o with freeze_until := now + FREEZE_SECS } else some o
        | none => none
      else opp
    (spawn_piece shapes fresh ps3, opp')

/-- Mirrors `Game.move` (`game_server.py:139-145`). -/
def move (shapes : Shapes) (ps : PlayerState) (dx : Int) : PlayerState :=
  match ps.active with
  | none => ps
  | some (p, x, y, r) =>
    if collides shapes ps.board p (x + dx) y r then ps
    else { ps with active := some (p, x + dx, y, r) }

/-- Mirrors `Game.rotate` (`game_server.py:147-153`): the power piece does not
rotate. -/
def rotate (shapes : Shapes) (ps : PlayerState) : PlayerState :=
  match ps.active with
  | none => ps
  | some (p, x, y, r) =>
    let nr := if p ≠ "P" then (r + 1) % 4 else 0
    if collides shapes ps.board p x y nr then ps
    else { ps with active := some (p, x, y, nr) }

/-- The descent loop of `Game.hard_drop` (`game_server.py:169-170`):
`while not collides(y + 1): y += 1`, here fuelled — 32 steps cover
every reachable position of a piece on the 20-row board (Python's loop
would not terminate only for a shape with no cells, never produced by
the real table). -/
def dropY (shapes : Shapes) (board : List (List (Option String)))
    (p : String) (x : Int) (r : Nat) : Nat → Int → Int
  | 0, y => y
  | n + 1, y =>
    if collides shapes board p x (y + 1) r then y
    else dropY shapes board p x r n (y + 1)

/-- Mirrors `Game.hard_drop` (`game_server.py:165-172`). -/
def hard_drop (shapes : Shapes) (fresh : List String) (freezeRoll : Bool)
    (now : ℚ) (ps : PlayerState) (opp : Option PlayerState) :
    PlayerState × Option PlayerState :=
  match ps.active with
  | none => (ps, opp)
  | some (p, x, y, r) =>
    let y2 := dropY shapes ps.board p x r 32 y
    lock_piece shapes fresh freezeRoll now { ps with active := some (p, x, y2, r) } opp

/-- Mirrors `Game.do_hold` (`game_server.py:119-137`). -/
def do_hold (shapes : Shapes) (fresh : List String) (now : ℚ)
    (ps : PlayerState) : PlayerState :=
  match ps.active with
  | none => ps
  | some (cur_p, _, _, _) =>
    if ps.hold_used then ps
    else
      match ps.hold with
      | none =>
        let ps1 := spawn_piece shapes fresh { ps with hold := some cur_p, active := none }
        { ps1 with hold_used := true, last_hold_at := now }
      | some old =>
        let ps1 := { ps with hold := some cur_p, active := some (old, 3, 0, 0) }
        let ps2 := if collides shapes ps1.board old 3 0 0 then { ps1 with alive := false } else ps1
        { ps2 with hold_used := true, last_hold_at := now }

/-- The FLASH branch of `input_loop` (`game_server.py:341-348`):
consume one banked charge to freeze an opponent who is not already
frozen; no effect (and no charge consumed) otherwise. -/
def flash_action (now : ℚ) (ps : PlayerState) (opp : Option PlayerState) :
    PlayerState × Option PlayerState :=
  match opp with
  | some o =>
    if 0 < ps.flash_charges then
      if o.freeze_until ≤ now then
        ({ ps with flash_charges := ps.flash_charges - 1, last_flash_at := now },
          some { o with freeze_until := now + FREEZE_SECS })
      else (ps, some o)
    else (ps, some o)
  | none => (ps, opp)

/-- One received message, `{'type': ..., 'action': ...}`. -/
structure InMsg where
  type : String
  action : String
deriving DecidableEq, Repr

/-- One iteration of `input_loop` (`game_server.py:319-351`) applied to
the received message `msg` at wall-clock time `now`: non-`INPUT`
messages are ignored; an `INPUT` from a player whose freeze window is
still open (`time.time() < ps.freeze_until`) is dropped before the
action dispatch; otherwise the action is applied under the match lock. -/
def handle_input (shapes : Shapes) (fresh : List String) (freezeRoll : Bool)
    (now : ℚ) (msg : InMsg) (ps : PlayerState) (opp : Option PlayerState) :
    PlayerState × Option PlayerState :=
  if msg.type = INPUT then
    if now < ps.freeze_until then (ps, opp)
    else
      if msg.action = LEFT then (move shapes ps (-1), opp)
      else if msg.action = RIGHT then (move shapes ps 1, opp)
      else if msg.action = ROTATE_CW then (rotate shapes ps, opp)
      else if msg.action = HARD_DROP then hard_drop shapes fresh freezeRoll now ps opp
      else if msg.action = "HOLD" then (do_hold shapes fresh now ps, opp)
      else if msg.action = "FLASH" then flash_action now ps opp
      else (ps, opp)
  else (ps, opp)

/-- Degenerate shape table for the concrete witnesses: every piece is a
single cell at its anchor. -/
def oneCell : Shapes := fun _ _ => [((0 : Int), (0 : Int))]

/-- Witness player state: cumulative `lines = 1` (so
`_flash_granted = 0`), and the active single-cell piece sits on the one
hole of row 19 — locking it clears that row, bringing the total to 2. -/
def ps8 : PlayerState :=
  { board := List.replicate 19 (List.replicate 10 (none : Option String)) ++
      [(none : Option String) :: List.replicate 9 (some "I")]
    active := some ("T", 0, 19, 0)
    queue := ["I", "I", "I"], alive := true, score := 0, lines := 1
    cleared_recent := [], freeze_until := 0, hold := none, hold_used := false
    flash_charges := 0, flash_granted := 0, last_hold_at := 0, last_flash_at := 0 }

/-- Witness player state for C9: frozen until time 5. -/
def ps9 : PlayerState :=
  { board := List.replicate 20 (List.replicate 10 (none : Option String))
    active := some ("T", 3, 0, 0)
    queue := ["I", "I", "I"], alive := true, score := 0, lines := 0
    cleared_recent := [], freeze_until := 5, hold := none, hold_used := false
    flash_charges := 0, flash_granted := 0, last_hold_at := 0, last_flash_at := 0 }

end Tetris

-- ======================================================================
-- Theorems
-- ======================================================================

namespace Launcher

lemma launch_ok_probe (env : LaunchEnv) (room : RoomMgr.Room) (p : Nat)
    (h : (launch env room).result = .ok p) :
    env.probeOk = true ∧ p = env.allocatedPort := by
  unfold launch at h
  split_ifs at h with h1 h2 h3 h4 <;> simp_all

end Launcher

namespace RoomMgr

lemma find_update_self (l : List (Nat × Room)) (rid : Nat) (r : Room)
    (h : ((l.find? (fun pr => pr.1 = rid)).map (·.2)).isSome) :
    (l.map (fun pr => if pr.1 = rid then (rid, r) else pr)).find?
      (fun pr => pr.1 = rid) = some (rid, r) := by
  induction l with
  | nil => simp at h
  | cons pr tl ih =>
    by_cases hh : pr.1 = rid
    · rw [List.map_cons, if_pos hh]
      exact List.find?_cons_of_pos _ (by simp)
    · rw [List.find?_cons_of_neg _ (by simp [hh])] at h
      rw [List.map_cons, if_neg hh, List.find?_cons_of_neg _ (by simp [hh])]
      exact ih h

lemma lookupRoom_setRoom (m : Manager) (rid : Nat) (r : Room)
    (h : (m.lookupRoom rid).isSome) :
    (m.setRoom rid r).lookupRoom rid = some r := by
  unfold Manager.lookupRoom Manager.setRoom at *
  simp only [find_update_self m.rooms rid r h, Option.map]

lemma lookupRoom_setInvites (m : Manager) (rid rid' : Nat) (s : List String) :
    (m.setInvites rid s).lookupRoom rid' = m.lookupRoom rid' := by
  unfold Manager.setInvites Manager.lookupRoom
  split <;> rfl

/-- C4 counterexample: in a waiting private room with spare capacity,
the caller "b" holds a pending invite, yet `join_room` refuses it with
the private-room error — the claim says such a call succeeds and
appends "b". -/
theorem invited_join_room_refused :
    (join_room M4 1 "b").1 = false ∧
    (join_room M4 1 "b").2.1 = "This is a private room. Only the host may join." ∧
    "b" ∈ M4.invitesFor 1 := by
  decide

/-- C4 (amended): for a waiting private room with spare capacity,
`join_room` succeeds exactly when the caller is the host, failing with
the private-room error for everyone else (invited or not); an identity
holding a pending invite is admitted through `accept_invite`, which
appends it to the participant list. -/
theorem private_join_host_only_accept_invite_admits
    (m : Manager) (rid : Nat) (room : Room) (u : String)
    (hr : m.lookupRoom rid = some room)
    (hw : room.status = "waiting")
    (hc : room.players.length < cap room)
    (hp : room.type = "private") :
    ((join_room m rid u).1 = true ↔ u = room.host) ∧
    (u ≠ room.host →
      (join_room m rid u).2.1 = "This is a private room. Only the host may join.") ∧
    (u ∈ m.invitesFor rid →
      (accept_invite m rid u).1 = true ∧
      ((accept_invite m rid u).2.2).lookupRoom rid =
        some { room with players := room.players ++ [u] }) := by
  have hcap : ¬ cap room ≤ room.players.length := by omega
  have hsome : (m.lookupRoom rid).isSome := by rw [hr]; rfl
  refine ⟨?_, ?_, ?_⟩
  · unfold join_room
    rw [hr]
    by_cases hu : u = room.host <;> simp [hw, hp, hu, hcap]
  · intro hu
    unfold join_room
    rw [hr]
    simp [hw, hp, hu, hcap]
  · intro hinv
    unfold accept_invite
    rw [hr]
    simp only [hinv, not_true_eq_false, if_false, hw, ne_eq, not_false_eq_true,
      if_neg, ite_not, if_neg hcap]
    refine ⟨by simp [hw, hcap], ?_⟩
    rw [lookupRoom_setInvites, lookupRoom_setRoom m rid _ hsome]

/-- Witness for the amended C4 theorem, at `M4` with the invited
non-host caller "b". -/
theorem private_join_witness :
    M4.lookupRoom 1 = some R4 ∧ R4.status = "waiting" ∧
    R4.players.length < cap R4 ∧ R4.type = "private" ∧
    (((join_room M4 1 "b").1 = true ↔ "b" = R4.host) ∧
      ("b" ≠ R4.host →
        (join_room M4 1 "b").2.1 = "This is a private room. Only the host may join.") ∧
      ("b" ∈ M4.invitesFor 1 →
        (accept_invite M4 1 "b").1 = true ∧
        ((accept_invite M4 1 "b").2.2).lookupRoom 1 =
          some { R4 with players := R4.players ++ ["b"] })) :=
  ⟨by decide, rfl, by decide, rfl,
    private_join_host_only_accept_invite_admits M4 1 R4 "b" (by decide) rfl (by decide) rfl⟩

/-- C5 counterexample: "b" is already in room 1's participant list, yet
a second `join_room` call succeeds AND changes the list by appending a
duplicate "b" — the claim says the list is left unchanged. -/
theorem rejoin_appends_duplicate :
    "b" ∈ R5.players ∧
    (join_room M5 1 "b").1 = true ∧
    (((join_room M5 1 "b").2.2).lookupRoom 1).map Room.players =
      some ["a", "b", "b"] := by
  decide

/-- C5 (amended): re-joining with an already-present identity is not
idempotent.  When the room is waiting, the join checks pass (e.g. a
public room) and a seat is still free, the call succeeds but appends a
duplicate entry; when the room is at capacity the call fails with the
room-full error and leaves the state unchanged. -/
theorem rejoin_not_idempotent
    (m : Manager) (rid : Nat) (room : Room) (u : String)
    (hr : m.lookupRoom rid = some room)
    (hw : room.status = "waiting")
    (hmem : u ∈ room.players)
    (hpriv : room.type = "private" → u = room.host) :
    (room.players.length < cap room →
      (join_room m rid u).1 = true ∧
      ((join_room m rid u).2.2).lookupRoom rid =
        some { room with players := room.players ++ [u] }) ∧
    (cap room ≤ room.players.length →
      (join_room m rid u).1 = false ∧
      (join_room m rid u).2.1 =
        "Room already full (" ++ toString (cap room) ++ " players)." ∧
      (join_room m rid u).2.2 = m) := by
  have hsome : (m.lookupRoom rid).isSome := by rw [hr]; rfl
  constructor
  · intro hlt
    have hcap : ¬ cap room ≤ room.players.length := by omega
    have hgate : ¬ (room.type = "private" ∧ u ≠ room.host) := by
      rintro ⟨h1, h2⟩; exact h2 (hpriv h1)
    unfold join_room
    rw [hr]
    simp only [hw, ne_eq, not_true_eq_false, if_false, if_neg hcap, if_neg hgate]
    exact ⟨by simp, lookupRoom_setRoom m rid _ hsome⟩
  · intro hge
    unfold join_room
    rw [hr]
    simp [hw, hge]

/-- Witness for the amended C5 theorem, at `M5` with the already-joined
caller "b" (spare-capacity branch). -/
theorem rejoin_not_idempotent_witness :
    M5.lookupRoom 1 = some R5 ∧ R5.status = "waiting" ∧ "b" ∈ R5.players ∧
    R5.players.length < cap R5 ∧
    ((join_room M5 1 "b").1 = true ∧
      ((join_room M5 1 "b").2.2).lookupRoom 1 =
        some { R5 with players := R5.players ++ ["b"] }) :=
  ⟨by decide, rfl, by decide, by decide,
    (rejoin_not_idempotent M5 1 R5 "b" (by decide) rfl (by decide)
      (fun h => absurd h (by decide))).1 (by decide)⟩

/-- C1: for a waiting room with no recorded port and enough players,
(i) a launcher failure makes `start_game` return that error and leave
the manager — hence the room's `waiting` status and absent port —
untouched; (ii) if `start_game` succeeds, the returned port is the
allocated port and the readiness probe was observed to accept a TCP
connection within the deadline; (iii) if the spawn succeeded but the
readiness deadline elapsed without a successful probe, the spawned
process is terminated and a failed-to-listen error is produced instead
of success. -/
theorem startGame_launch_correct
    (m : Manager) (rid : Nat) (room : Room) (env : Launcher.LaunchEnv)
    (hr : m.lookupRoom rid = some room)
    (hw : room.status = "waiting")
    (hp : room.port = none)
    (h2 : 2 ≤ room.players.length) :
    (∀ e, (Launcher.launch env room).result = .error e →
      start_game m rid (some fun r => (Launcher.launch env r).result) = (.error e, m) ∧
      (m.lookupRoom rid).map Room.status = some "waiting" ∧
      ((m.lookupRoom rid).map Room.port) = some none) ∧
    (∀ p, (start_game m rid (some fun r => (Launcher.launch env r).result)).1 = .ok p →
      env.probeOk = true ∧ p = env.allocatedPort) ∧
    (env.gameFound = true →
      (env.hasStartCmd = true ∨ env.legacyScriptExists = true) →
      env.spawnOk = true → env.probeOk = false →
      (Launcher.launch env room).terminated = true ∧
      (Launcher.launch env room).result =
        .error ("server_failed_to_listen_on_port_" ++ toString env.allocatedPort)) := by
  have hlt : ¬ room.players.length < 2 := by omega
  refine ⟨?_, ?_, ?_⟩
  · intro e he
    refine ⟨?_, by rw [hr]; simp [hw], by rw [hr]; simp [hp]⟩
    unfold start_game
    rw [hr]
    simp only [if_neg hlt, he]
  · intro p hok
    unfold start_game at hok
    rw [hr] at hok
    simp only [if_neg hlt] at hok
    rcases hres : (Launcher.launch env room).result with e | q
    · rw [hres] at hok; simp at hok
    · rw [hres] at hok
      simp only at hok
      obtain ⟨h1, h2'⟩ := Launcher.launch_ok_probe env room q hres
      refine ⟨h1, ?_⟩
      injection hok with h
      omega
  · intro hg hcmd hs hpr
    unfold Launcher.launch
    have : ¬ (env.hasStartCmd = false ∧ env.legacyScriptExists = false) := by
      rcases hcmd with h | h <;> simp [h]
    simp [hg, this, hs, hpr]

/-- Witness for C1, at `M1` and the probe-failure environment
`envFail`: the deadline elapses, the process is terminated, and
`start_game` returns the failed-to-listen error leaving `M1` intact. -/
theorem startGame_launch_correct_witness :
    M1.lookupRoom 1 = some R1 ∧ R1.status = "waiting" ∧ R1.port = none ∧
    2 ≤ R1.players.length ∧
    ((Launcher.launch envFail R1).terminated = true ∧
      (Launcher.launch envFail R1).result =
        .error ("server_failed_to_listen_on_port_" ++ toString envFail.allocatedPort)) :=
  ⟨by decide, rfl, rfl, by decide,
    (startGame_launch_correct M1 1 R1 envFail (by decide) rfl rfl
      (by decide)).2.2 rfl (Or.inl rfl) rfl rfl⟩

/-- C2 counterexample: room 1 is `running`, yet `invite_user` succeeds
(it never checks the status), and `start_game` relaunches the match and
overwrites the recorded port — the claim says every such call fails and
leaves the room unchanged. -/
theorem running_room_still_invitable_and_restartable :
    (M2.lookupRoom 1).map Room.status = some "running" ∧
    (invite_user M2 1 "h" "c").1 = true ∧
    (start_game M2 1 (some fun r => (Launcher.launch envOk r).result)).1 = .ok 31000 ∧
    ((start_game M2 1 (some fun r => (Launcher.launch envOk r).result)).2.lookupRoom 1).map
      Room.port = some (some 31000) :=
  ⟨rfl, rfl, rfl, rfl⟩

/-- C2 (amended): for a room whose status is `running`, `join_room` and
`accept_invite` fail and leave the manager state unchanged; but
`invite_user` and `start_game` perform no status check, so an invite
can still be added to a running room and the room can be re-started. -/
theorem running_room_join_accept_fail
    (m : Manager) (rid : Nat) (room : Room) (u v : String)
    (hr : m.lookupRoom rid = some room)
    (hrun : room.status = "running") :
    (join_room m rid u).1 = false ∧
    (join_room m rid u).2.2 = m ∧
    (accept_invite m rid v).1 = false ∧
    (accept_invite m rid v).2.2 = m := by
  have hne : room.status ≠ "waiting" := by rw [hrun]; decide
  refine ⟨?_, ?_, ?_, ?_⟩ <;>
    [skip; skip; unfold accept_invite; unfold accept_invite] <;>
    first
      | (unfold join_room; rw [hr]; simp [hne])
      | (rw [hr]
         by_cases hv : v ∈ m.invitesFor rid <;> simp [hv, hne])

/-- Witness for the amended C2 theorem, at `M2`. -/
theorem running_room_join_accept_fail_witness :
    M2.lookupRoom 1 = some R2 ∧ R2.status = "running" ∧
    ((join_room M2 1 "x").1 = false ∧
      (join_room M2 1 "x").2.2 = M2 ∧
      (accept_invite M2 1 "b").1 = false ∧
      (accept_invite M2 1 "b").2.2 = M2) :=
  ⟨by decide, rfl, running_room_join_accept_fail M2 1 R2 "x" "b" (by decide) rfl⟩

end RoomMgr

namespace Lobby

/-- C3 (code bug): attaching a primary connection for "alice" via
`_add_client_conn` stores an empty handle list — the handle itself is
dropped — so a later `game_started` push to "alice" attempts zero
sends; the sibling `_add_monitor_conn` does store its handle, which is
then tried.  This contradicts the claim (and §4.2 of the spec) that a
handle attached for a logged-in identity is stored and later tried
across both roles. -/
theorem add_client_conn_never_stores_handle :
    add_client_conn [] "alice" 7 = [("alice", [])] ∧
    notify_conns [] (add_client_conn [] "alice" 7) "alice" = [] ∧
    notify_conns (add_monitor_conn [] "alice" 7) [] "alice" = [7] := by
  decide

end Lobby

namespace RingBS

/-- C6: whenever at least two seats are alive, the selected defender is
the next alive seat in ring order after the attacker, computed from the
alive list refiltered at that very moment (every selected index holds a
live connection); and in the concrete 4-seat state where D has
disconnected, six successive turns produce the 3-seat ring
A→B, B→C, C→A, A→B, B→C, C→A, skipping D. -/
theorem defender_next_alive_ring
    (players : List Seat) (alive : List Nat) (pos : Nat)
    (h2 : 2 ≤ (aliveFilter players alive).length) :
    (∃ k, k < (aliveFilter players alive).length ∧
      (currentPair players alive pos).1 =
        some ((aliveFilter players alive).getD k 0,
          (aliveFilter players alive).getD
            ((k + 1) % (aliveFilter players alive).length) 0) ∧
      (∀ i ∈ aliveFilter players alive,
        ((players.getD i ⟨none, none⟩).conn).isSome)) ∧
    turnSeq players4D 6 [0, 1, 2, 3] 0 =
      [(0, 1), (1, 2), (2, 0), (0, 1), (1, 2), (2, 0)] := by
  constructor
  · refine ⟨normPos pos (aliveFilter players alive).length, ?_, ?_, ?_⟩
    · unfold normPos
      split <;> omega
    · unfold currentPair
      rw [if_neg (by omega)]
    · intro i hi
      unfold aliveFilter at hi
      simpa using (List.mem_filter.mp hi).2
  · decide

/-- Witness for C6, at the 4-seat state `players4D` with the full index
ring and cursor 0. -/
theorem defender_next_alive_ring_witness :
    2 ≤ (aliveFilter players4D [0, 1, 2, 3]).length ∧
    ((∃ k, k < (aliveFilter players4D [0, 1, 2, 3]).length ∧
      (currentPair players4D [0, 1, 2, 3] 0).1 =
        some ((aliveFilter players4D [0, 1, 2, 3]).getD k 0,
          (aliveFilter players4D [0, 1, 2, 3]).getD
            ((k + 1) % (aliveFilter players4D [0, 1, 2, 3]).length) 0) ∧
      (∀ i ∈ aliveFilter players4D [0, 1, 2, 3],
        ((players4D.getD i ⟨none, none⟩).conn).isSome)) ∧
    turnSeq players4D 6 [0, 1, 2, 3] 0 =
      [(0, 1), (1, 2), (2, 0), (0, 1), (1, 2), (2, 0)]) :=
  ⟨by decide, defender_next_alive_ring players4D [0, 1, 2, 3] 0 (by decide)⟩

end RingBS

namespace BS

/-- C7: an in-bounds attack on a previously untouched ship cell which
leaves no cell of that ship's symbol anywhere on the marked board is a
`HIT` whose `sunk_boat` is that ship's name, and the attacker wins the
match this turn — without any requirement that the other ships be sunk. -/
theorem first_sunk_ship_wins
    (board : List (List String)) (r c : Int) (cell : String)
    (hr0 : 0 ≤ r) (hr : r < 10) (hc0 : 0 ≤ c) (hc : c < 10)
    (hcell : (board.getD r.toNat []).getD c.toNat "" = cell)
    (hship : cell ∈ SHIP_SYMBOLS)
    (hgone : ∀ row ∈ setCell board r.toNat c.toNat "X", cell ∉ row) :
    (resolve_attack board r c).result = "HIT" ∧
    (resolve_attack board r c).sunk_boat = SYMBOL_TO_NAME cell ∧
    truthyStr (SYMBOL_TO_NAME cell) = true ∧
    attacker_wins_turn board r c = true := by
  have hb : ¬¬(0 ≤ r ∧ r < 10 ∧ 0 ≤ c ∧ c < 10) := by
    push_neg
    exact ⟨hr0, hr, hc0, hc⟩
  have hrem : (setCell board r.toNat c.toNat "X").any (fun row => cell ∈ row) = false := by
    rw [List.any_eq_false]
    intro row hrow
    simpa using hgone row hrow
  have hres : resolve_attack board r c =
      { result := "HIT", sunk_boat := SYMBOL_TO_NAME cell
        board := setCell board r.toNat c.toNat "X" } := by
    unfold resolve_attack
    rw [if_neg hb]
    simp only [hcell, hship, if_pos, hrem]
    simp [hship]
  have htruthy : truthyStr (SYMBOL_TO_NAME cell) = true := by
    fin_cases hship <;> decide
  refine ⟨by rw [hres], by rw [hres], htruthy, ?_⟩
  unfold attacker_wins_turn
  rw [hres]
  simp [htruthy]

/-- Witness for C7, attacking the size-1 Destroyer cell of `board7`. -/
theorem first_sunk_ship_wins_witness :
    (board7.getD 0 []).getD 0 "" = "D" ∧ "D" ∈ SHIP_SYMBOLS ∧
    (∀ row ∈ setCell board7 0 0 "X", "D" ∉ row) ∧
    all_ships_sunk (resolve_attack board7 0 0).board = false ∧
    ((resolve_attack board7 0 0).result = "HIT" ∧
      (resolve_attack board7 0 0).sunk_boat = SYMBOL_TO_NAME "D" ∧
      truthyStr (SYMBOL_TO_NAME "D") = true ∧
      attacker_wins_turn board7 0 0 = true) :=
  ⟨by decide, by decide, by decide, by decide,
    first_sunk_ship_wins board7 0 0 "D" (by decide) (by decide) (by decide)
      (by decide) (by decide) (by decide) (by decide)⟩

end BS

namespace Tetris

/-- Helper: `spawn_piece` touches only the queue / active piece / hold flag /
aliveness. -/
lemma spawn_piece_preserves (shapes : Shapes) (fresh : List String)
    (ps : PlayerState) :
    (spawn_piece shapes fresh ps).board = ps.board ∧
    (spawn_piece shapes fresh ps).lines = ps.lines ∧
    (spawn_piece shapes fresh ps).flash_charges = ps.flash_charges ∧
    (spawn_piece shapes fresh ps).flash_granted = ps.flash_granted := by
  unfold spawn_piece
  split
  · exact ⟨rfl, rfl, rfl, rfl⟩
  · dsimp only
    split <;> exact ⟨rfl, rfl, rfl, rfl⟩

/-- Field-level description of `_grant_flash_charges`. -/
lemma grant_flash_charges_spec (ps : PlayerState) :
    (grant_flash_charges ps).board = ps.board ∧
    (grant_flash_charges ps).lines = ps.lines ∧
    (grant_flash_charges ps).flash_granted = max ps.flash_granted (ps.lines / 2) ∧
    (grant_flash_charges ps).flash_charges =
      ps.flash_charges + (ps.lines / 2 - ps.flash_granted) := by
  refine ⟨?_, ?_, ?_, ?_⟩ <;>
    · unfold grant_flash_charges
      try dsimp only
      split <;> (try dsimp only) <;> first | rfl | omega

/-- Under the invariant `flash_granted = lines / 2`, one `lock_piece`
call adds its cleared-row count `c` to `lines` and exactly
`(lines + c) / 2 - lines / 2` to `flash_charges`. -/
lemma lock_piece_flash (shapes : Shapes) (fresh : List String) (roll : Bool)
    (now : ℚ) (ps : PlayerState) (opp : Option PlayerState)
    (hinv : ps.flash_granted = ps.lines / 2) :
    ∃ c : Nat,
      (lock_piece shapes fresh roll now ps opp).1.lines = ps.lines + c ∧
      (lock_piece shapes fresh roll now ps opp).1.flash_granted = (ps.lines + c) / 2 ∧
      (lock_piece shapes fresh roll now ps opp).1.flash_charges =
        ps.flash_charges + ((ps.lines + c) / 2 - ps.lines / 2) := by
  rcases hact : ps.active with _ | ⟨p, x, y, r⟩
  · refine ⟨0, ?_, ?_, ?_⟩ <;> simp [lock_piece, hact, hinv]
  · refine ⟨((place ps.board (cells shapes p x y r) p).filter
        (fun row => rowFull row)).length, ?_, ?_, ?_⟩ <;>
    · unfold lock_piece
      rw [hact]
      try dsimp only
      obtain ⟨hb, hl, hch, hg⟩ := spawn_piece_preserves shapes fresh _
      first | rw [hl] | rw [hg] | rw [hch]
      obtain ⟨gb, gl, gg, gch⟩ := grant_flash_charges_spec _
      split_ifs with hp hc hc <;> (try dsimp only) <;>
        (try first | rw [gl] | rw [gg] | rw [gch]) <;> (try dsimp only) <;> omega

lemma placeCell_length (b : List (List (Option String))) (pr : Int × Int)
    (p : String) : (placeCell b pr p).length = b.length := by
  unfold placeCell
  split
  · exact List.length_set b _ _
  · rfl

lemma place_length (p : String) :
    ∀ (cs : List (Int × Int)) (b : List (List (Option String))),
      (place b cs p).length = b.length
  | [], _ => rfl
  | pr :: rest, b => by
    show (place (placeCell b pr p) rest p).length = b.length
    rw [place_length p rest (placeCell b pr p), placeCell_length]

lemma placeCell_rows (b : List (List (Option String))) (pr : Int × Int)
    (p : String) (W : Nat) (h : ∀ row ∈ b, row.length = W) :
    ∀ row ∈ placeCell b pr p, row.length = W := by
  unfold placeCell
  split
  · intro row hrow
    by_cases hle : b.length ≤ pr.2.toNat
    · rw [List.set_eq_of_length_le hle] at hrow
      exact h row hrow
    · push_neg at hle
      rcases List.mem_or_eq_of_mem_set hrow with hmem | heq
      · exact h row hmem
      · subst heq
        rw [List.length_set, List.getD_eq_getElem b [] hle]
        exact h _ (List.getElem_mem hle)
  · exact h

lemma place_rows (p : String) (W : Nat) :
    ∀ (cs : List (Int × Int)) (b : List (List (Option String))),
      (∀ row ∈ b, row.length = W) → ∀ row ∈ place b cs p, row.length = W
  | [], _, h => h
  | pr :: rest, b, h => by
    show ∀ row ∈ place (placeCell b pr p) rest p, row.length = W
    exact place_rows p W rest _ (placeCell_rows b pr p W h)

/-- C8: under the self-maintained invariant
`_flash_granted = lines / 2`, a `lock_piece` call preserves the
invariant, never decreases the cumulative line count, and changes the
charge count by exactly `lines' / 2 - lines / 2` — lines already
counted toward a granted charge are never re-granted.  In particular,
when the cumulative total reaches exactly 2 the charge count increases
by exactly 1, and starting from a total of 2 it does not increase again
while the total stays below 4. -/
theorem charges_per_two_lines
    (shapes : Shapes) (fresh : List String) (roll : Bool) (now : ℚ)
    (ps ps' : PlayerState) (opp : Option PlayerState)
    (hinv : ps.flash_granted = ps.lines / 2)
    (hps' : ps' = (lock_piece shapes fresh roll now ps opp).1) :
    ps'.flash_granted = ps'.lines / 2 ∧
    ps.lines ≤ ps'.lines ∧
    ps'.flash_charges = ps.flash_charges + (ps'.lines / 2 - ps.lines / 2) ∧
    (ps.lines < 2 → ps'.lines = 2 → ps'.flash_charges = ps.flash_charges + 1) ∧
    (ps.lines = 2 → ps'.lines < 4 → ps'.flash_charges = ps.flash_charges) := by
  obtain ⟨c, h1, h2, h3⟩ := lock_piece_flash shapes fresh roll now ps opp hinv
  subst hps'
  refine ⟨?_, ?_, ?_, ?_, ?_⟩ <;> omega

/-- Witness for C8 at `ps8`: the lock clears one row, the cumulative
total reaches exactly 2, and the charge count rises from 0 to 1. -/
theorem charges_per_two_lines_witness :
    ps8.flash_granted = ps8.lines / 2 ∧
    ((lock_piece oneCell ["I"] false 0 ps8 none).1.flash_granted =
        (lock_piece oneCell ["I"] false 0 ps8 none).1.lines / 2 ∧
      ps8.lines ≤ (lock_piece oneCell ["I"] false 0 ps8 none).1.lines ∧
      (lock_piece oneCell ["I"] false 0 ps8 none).1.flash_charges =
        ps8.flash_charges +
          ((lock_piece oneCell ["I"] false 0 ps8 none).1.lines / 2 - ps8.lines / 2) ∧
      (ps8.lines < 2 → (lock_piece oneCell ["I"] false 0 ps8 none).1.lines = 2 →
        (lock_piece oneCell ["I"] false 0 ps8 none).1.flash_charges =
          ps8.flash_charges + 1) ∧
      (ps8.lines = 2 → (lock_piece oneCell ["I"] false 0 ps8 none).1.lines < 4 →
        (lock_piece oneCell ["I"] false 0 ps8 none).1.flash_charges =
          ps8.flash_charges)) ∧
    (lock_piece oneCell ["I"] false 0 ps8 none).1.lines = 2 ∧
    (lock_piece oneCell ["I"] false 0 ps8 none).1.flash_charges = 1 :=
  ⟨rfl,
    charges_per_two_lines oneCell ["I"] false 0 ps8
      ((lock_piece oneCell ["I"] false 0 ps8 none).1) none rfl rfl,
    by decide, by decide⟩

/-- C9: an `INPUT` message received while the player's freeze window is
still open (`now < freeze_until`, i.e. positive remaining freeze time)
is discarded: the handler returns both states unchanged — in
particular board, active piece, held piece, score, line count and
charge count are untouched, for any action and any shape table. -/
theorem frozen_input_no_effect
    (shapes : Shapes) (fresh : List String) (roll : Bool) (now : ℚ)
    (msg : InMsg) (ps : PlayerState) (opp : Option PlayerState)
    (ht : msg.type = INPUT) (hf : now < ps.freeze_until) :
    handle_input shapes fresh roll now msg ps opp = (ps, opp) ∧
    (handle_input shapes fresh roll now msg ps opp).1.board = ps.board ∧
    (handle_input shapes fresh roll now msg ps opp).1.active = ps.active ∧
    (handle_input shapes fresh roll now msg ps opp).1.hold = ps.hold ∧
    (handle_input shapes fresh roll now msg ps opp).1.score = ps.score ∧
    (handle_input shapes fresh roll now msg ps opp).1.lines = ps.lines ∧
    (handle_input shapes fresh roll now msg ps opp).1.flash_charges = ps.flash_charges := by
  have h : handle_input shapes fresh roll now msg ps opp = (ps, opp) := by
    unfold handle_input
    rw [if_pos ht, if_pos hf]
  exact ⟨h, by rw [h], by rw [h], by rw [h], by rw [h], by rw [h], by rw [h]⟩

/-- Witness for C9: a `LEFT` input at time 1, during `ps9`'s freeze
window, leaves the state untouched. -/
theorem frozen_input_no_effect_witness :
    (InMsg.mk "INPUT" "LEFT").type = INPUT ∧ (1 : ℚ) < ps9.freeze_until ∧
    handle_input oneCell ["I"] false 1 (InMsg.mk "INPUT" "LEFT") ps9 none =
      (ps9, none) :=
  ⟨rfl, by decide,
    (frozen_input_no_effect oneCell ["I"] false 1 (InMsg.mk "INPUT" "LEFT") ps9 none
      rfl (by decide)).1⟩

/-- C10: for a well-formed 20×10 board and an active piece whose cells
lie in bounds (as every reachable lock's do), `lock_piece` produces
exactly the compaction the source writes: one fresh empty row on top
per cleared row followed by the non-full rows in order, so the board
again has exactly 20 rows of 10 cells and contains no fully-filled
row. -/
theorem lock_piece_board_shape
    (shapes : Shapes) (fresh : List String) (roll : Bool) (now : ℚ)
    (ps : PlayerState) (opp : Option PlayerState)
    (p : String) (x y : Int) (r : Nat)
    (hact : ps.active = some (p, x, y, r))
    (hlen : ps.board.length = 20)
    (hrows : ∀ row ∈ ps.board, row.length = 10)
    (hcells : ∀ pr ∈ cells shapes p x y r,
      0 ≤ pr.1 ∧ pr.1 < (WIDTH : Int) ∧ 0 ≤ pr.2 ∧ pr.2 < (HEIGHT : Int)) :
    (lock_piece shapes fresh roll now ps opp).1.board =
      List.replicate
        ((place ps.board (cells shapes p x y r) p).filter (fun row => rowFull row)).length
        (List.replicate WIDTH (none : Option String)) ++
      (place ps.board (cells shapes p x y r) p).filter (fun row => !rowFull row) ∧
    (lock_piece shapes fresh roll now ps opp).1.board.length = 20 ∧
    (∀ row ∈ (lock_piece shapes fresh roll now ps opp).1.board, row.length = 10) ∧
    (∀ row ∈ (lock_piece shapes fresh roll now ps opp).1.board, rowFull row = false) := by
  have hboard : (lock_piece shapes fresh roll now ps opp).1.board =
      List.replicate
        ((place ps.board (cells shapes p x y r) p).filter (fun row => rowFull row)).length
        (List.replicate WIDTH (none : Option String)) ++
      (place ps.board (cells shapes p x y r) p).filter (fun row => !rowFull row) := by
    unfold lock_piece
    rw [hact]
    try dsimp only
    obtain ⟨hb, _, _, _⟩ := spawn_piece_preserves shapes fresh _
    rw [hb]
    obtain ⟨gb, _, _, _⟩ := grant_flash_charges_spec _
    split_ifs <;> (try dsimp only) <;> (try rw [gb]) <;> (try dsimp only) <;> rfl
  refine ⟨hboard, ?_, ?_, ?_⟩
  · rw [hboard, List.length_append, List.length_replicate]
    have hsum := List.length_eq_length_filter_add
      (l := place ps.board (cells shapes p x y r) p) (fun row => rowFull row)
    rw [place_length p (cells shapes p x y r) ps.board, hlen] at hsum
    omega
  · rw [hboard]
    intro row hrow
    rcases List.mem_append.mp hrow with h | h
    · rw [List.eq_of_mem_replicate h]
      simp [WIDTH]
    · exact place_rows p 10 (cells shapes p x y r) ps.board hrows row
        (List.mem_filter.mp h).1
  · rw [hboard]
    intro row hrow
    rcases List.mem_append.mp hrow with h | h
    · rw [List.eq_of_mem_replicate h]
      decide
    · have h2 := (List.mem_filter.mp h).2
      simpa using h2

/-- Witness for C10 at `ps8`: locking the single-cell piece fills row
19, which is cleared; the board stays 20×10 and holds no full row. -/
theorem lock_piece_board_shape_witness :
    ps8.active = some ("T", 0, 19, 0) ∧
    ps8.board.length = 20 ∧
    (∀ row ∈ ps8.board, row.length = 10) ∧
    (∀ pr ∈ cells oneCell "T" 0 19 0,
      0 ≤ pr.1 ∧ pr.1 < (WIDTH : Int) ∧ 0 ≤ pr.2 ∧ pr.2 < (HEIGHT : Int)) ∧
    ((lock_piece oneCell ["I"] false 0 ps8 none).1.board =
      List.replicate
        ((place ps8.board (cells oneCell "T" 0 19 0) "T").filter
          (fun row => rowFull row)).length
        (List.replicate WIDTH (none : Option String)) ++
      (place ps8.board (cells oneCell "T" 0 19 0) "T").filter (fun row => !rowFull row) ∧
    (lock_piece oneCell ["I"] false 0 ps8 none).1.board.length = 20 ∧
    (∀ row ∈ (lock_piece oneCell ["I"] false 0 ps8 none).1.board, row.length = 10) ∧
    (∀ row ∈ (lock_piece oneCell ["I"] false 0 ps8 none).1.board, rowFull row = false)) :=
  ⟨rfl, by decide, by decide, by decide,
    lock_piece_board_shape oneCell ["I"] false 0 ps8 none "T" 0 19 0
      rfl (by decide) (by decide) (by decide)⟩

end Tetris
